import Mathlib

/-!
Verification development for the Inventory Management repository.

The repository's single source file (`inventory_streamlit_app.py`) is a
Streamlit/CLI front end over a MySQL inventory schema.  Its mutating
operations are four stored procedures (`sp_receive_po_item`,
`sp_allocate_so_item`, `sp_ship_so_item`, `sp_apply_adjustment_item`) that
the file invokes by name through `call_procedure_core` but never defines.
The ledger state machine below is therefore modelled from the spec
(sections 3 and 4), while `call_procedure_core` is embedded directly from
the source.  Quantities and costs are modelled as rationals.
-/

namespace Inventory

/-- Modelled from the spec: the movement_type enum of an InventoryMovement
(RECEIPT, ALLOCATION, SALES_SHIPMENT, ADJUSTMENT). -/
inductive MovementType where
  | RECEIPT
  | ALLOCATION
  | SALES_SHIPMENT
  | ADJUSTMENT
deriving DecidableEq, Repr

/-- Modelled from the spec: a StockLevel row holds `on_hand` and `avg_cost`
for one (product, warehouse) pair. -/
structure StockLevel where
  on_hand : ℚ
  avg_cost : ℚ
deriving DecidableEq, Repr

/-- Modelled from the spec: a purchase-order line with ordered and received
quantity counters; `warehouse_id` is the PO's destination warehouse. -/
structure PurchaseOrderItem where
  po_id : Nat
  product_id : Nat
  warehouse_id : Nat
  ordered_qty : ℚ
  received_qty : ℚ
deriving DecidableEq, Repr

/-- Modelled from the spec: a sales-order line with ordered, shipped and
soft-hold allocated quantity counters; `warehouse_id` is the SO's warehouse. -/
structure SalesOrderItem where
  so_id : Nat
  product_id : Nat
  warehouse_id : Nat
  ordered_qty : ℚ
  shipped_qty : ℚ
  allocated_qty : ℚ
deriving DecidableEq, Repr

/-- Modelled from the spec: a stock-adjustment document referencing the
warehouse the adjustment applies to. -/
structure Adjustment where
  adjustment_id : Nat
  warehouse_id : Nat
deriving DecidableEq, Repr

/-- Modelled from the spec: an immutable append-only InventoryMovement audit
record. `acted_by` is optional because AllocateSOItem takes no actor. -/
structure InventoryMovement where
  product_id : Nat
  warehouse_id : Nat
  movement_type : MovementType
  qty : ℚ
  acted_by : Option Nat
  reference : Nat
deriving DecidableEq, Repr

/-- Modelled from the spec: the error taxonomy of the Ledger Engine
(section 7; ContentionConflict is a transient transport error, out of the
sequential model). -/
inductive LedgerError where
  | InvalidQuantity
  | NotFound
  | InsufficientStock
  | OverReceipt
  | OverShipment
deriving DecidableEq, Repr

/-- Modelled from the spec: the whole ledger state: stock levels keyed by
(product_id, warehouse_id), order lines, adjustment documents and the
append-only movement log. -/
structure State where
  stock : List ((Nat × Nat) × StockLevel)
  po_lines : List PurchaseOrderItem
  so_lines : List SalesOrderItem
  adjustments : List Adjustment
  movements : List InventoryMovement
deriving DecidableEq, Repr

/-- Modelled from the spec: the outcome of one atomic operation: the state
after the transaction and an optional error.  On error the state equals the
input state (all-or-nothing semantics). -/
structure LResult where
  state : State
  err : Option LedgerError
deriving DecidableEq, Repr

/-- Look up the StockLevel for a key; a row absent from the table reads as
the lazily-created zero row (on_hand 0, avg_cost 0). -/
def getStock (s : List ((Nat × Nat) × StockLevel)) (k : Nat × Nat) : StockLevel :=
  match s.find? (fun e => decide (e.1 = k)) with
  | some e => e.2
  | none => { on_hand := 0, avg_cost := 0 }

/-- Insert or update the StockLevel row for a key. -/
def setStock (s : List ((Nat × Nat) × StockLevel)) (k : Nat × Nat) (v : StockLevel) :
    List ((Nat × Nat) × StockLevel) :=
  (k, v) :: s.filter (fun e => decide (¬ e.1 = k))

/-- Find the purchase-order line addressed by a (po_id, product_id) pair. -/
def find_po_line (σ : State) (po_id product_id : Nat) : Option PurchaseOrderItem :=
  σ.po_lines.find? (fun l => decide (l.po_id = po_id ∧ l.product_id = product_id))

/-- Find the sales-order line addressed by a (so_id, product_id) pair. -/
def find_so_line (σ : State) (so_id product_id : Nat) : Option SalesOrderItem :=
  σ.so_lines.find? (fun l => decide (l.so_id = so_id ∧ l.product_id = product_id))

/-- Find the adjustment document with a given id. -/
def find_adjustment (σ : State) (adjustment_id : Nat) : Option Adjustment :=
  σ.adjustments.find? (fun a => decide (a.adjustment_id = adjustment_id))

/-- Update every purchase-order line matching (po_id, product_id), adding
qty to its received_qty counter. -/
def update_po_line (ls : List PurchaseOrderItem) (po_id product_id : Nat) (qty : ℚ) :
    List PurchaseOrderItem :=
  ls.map (fun l =>
    if l.po_id = po_id ∧ l.product_id = product_id then
      { l with received_qty := l.received_qty + qty }
    else l)

/-- Update every sales-order line matching (so_id, product_id) with f. -/
def update_so_line (ls : List SalesOrderItem) (so_id product_id : Nat)
    (f : SalesOrderItem → SalesOrderItem) : List SalesOrderItem :=
  ls.map (fun l => if l.so_id = so_id ∧ l.product_id = product_id then f l else l)

/-- Modelled from the spec: the stored procedure `sp_receive_po_item`
(ReceivePOItem), absent from the given source, which only invokes it by
name.  Validates the line exists, qty is positive, unit_cost nonnegative
and the remaining ordered quantity suffices; then adds qty to on_hand at
the PO's destination warehouse, recomputes the weighted-average cost,
bumps received_qty and appends one RECEIPT movement. -/
def sp_receive_po_item (σ : State) (po_id product_id : Nat) (qty unit_cost : ℚ)
    (acted_by : Nat) : LResult :=
  match find_po_line σ po_id product_id with
  | none => { state := σ, err := some LedgerError.NotFound }
  | some line =>
    if qty ≤ 0 then { state := σ, err := some LedgerError.InvalidQuantity }
    else if unit_cost < 0 then { state := σ, err := some LedgerError.InvalidQuantity }
    else if line.ordered_qty - line.received_qty < qty then
      { state := σ, err := some LedgerError.OverReceipt }
    else
      let k := (product_id, line.warehouse_id)
      let s := getStock σ.stock k
      { state :=
          { σ with
            stock := setStock σ.stock k
              { on_hand := s.on_hand + qty,
                avg_cost := (s.on_hand * s.avg_cost + qty * unit_cost) / (s.on_hand + qty) },
            po_lines := update_po_line σ.po_lines po_id product_id qty,
            movements := σ.movements ++
              [{ product_id := product_id, warehouse_id := line.warehouse_id,
                 movement_type := MovementType.RECEIPT, qty := qty,
                 acted_by := some acted_by, reference := po_id }] },
        err := none }

/-- Modelled from the spec: the stored procedure `sp_allocate_so_item`
(AllocateSOItem), absent from the given source.  A soft hold: it never
touches the stock table, only raises the line's allocated_qty and appends
one ALLOCATION movement, failing when available-to-allocate
(on_hand - allocated_qty) is below qty. -/
def sp_allocate_so_item (σ : State) (so_id product_id : Nat) (qty : ℚ) : LResult :=
  match find_so_line σ so_id product_id with
  | none => { state := σ, err := some LedgerError.NotFound }
  | some line =>
    if qty ≤ 0 then { state := σ, err := some LedgerError.InvalidQuantity }
    else
      let s := getStock σ.stock (product_id, line.warehouse_id)
      if s.on_hand - line.allocated_qty < qty then
        { state := σ, err := some LedgerError.InsufficientStock }
      else
        { state :=
            { σ with
              so_lines := update_so_line σ.so_lines so_id product_id
                (fun l => { l with allocated_qty := l.allocated_qty + qty }),
              movements := σ.movements ++
                [{ product_id := product_id, warehouse_id := line.warehouse_id,
                   movement_type := MovementType.ALLOCATION, qty := qty,
                   acted_by := none, reference := so_id }] },
          err := none }

/-- Modelled from the spec: the stored procedure `sp_ship_so_item`
(ShipSOItem), absent from the given source.  Subtracts qty from on_hand
(avg_cost untouched), bumps shipped_qty, releases the allocation hold and
appends one SALES_SHIPMENT movement; fails InsufficientStock when qty
exceeds on_hand (checked before OverShipment, as listed in the spec). -/
def sp_ship_so_item (σ : State) (so_id product_id : Nat) (qty : ℚ) (acted_by : Nat) :
    LResult :=
  match find_so_line σ so_id product_id with
  | none => { state := σ, err := some LedgerError.NotFound }
  | some line =>
    if qty ≤ 0 then { state := σ, err := some LedgerError.InvalidQuantity }
    else
      let k := (product_id, line.warehouse_id)
      let s := getStock σ.stock k
      if s.on_hand < qty then { state := σ, err := some LedgerError.InsufficientStock }
      else if line.ordered_qty - line.shipped_qty < qty then
        { state := σ, err := some LedgerError.OverShipment }
      else
        { state :=
            { σ with
              stock := setStock σ.stock k
                { on_hand := s.on_hand - qty, avg_cost := s.avg_cost },
              so_lines := update_so_line σ.so_lines so_id product_id
                (fun l => { l with shipped_qty := l.shipped_qty + qty,
                                   allocated_qty := max (l.allocated_qty - qty) 0 }),
              movements := σ.movements ++
                [{ product_id := product_id, warehouse_id := line.warehouse_id,
                   movement_type := MovementType.SALES_SHIPMENT, qty := qty,
                   acted_by := some acted_by, reference := so_id }] },
          err := none }

/-- Modelled from the spec: the stored procedure `sp_apply_adjustment_item`
(ApplyAdjustmentItem), absent from the given source.  Adds the signed
qty_change to on_hand at the adjustment's warehouse (avg_cost untouched)
and appends one ADJUSTMENT movement with the signed qty; fails
InsufficientStock when the result would be negative. -/
def sp_apply_adjustment_item (σ : State) (adjustment_id product_id : Nat)
    (qty_change : ℚ) (acted_by : Nat) : LResult :=
  match find_adjustment σ adjustment_id with
  | none => { state := σ, err := some LedgerError.NotFound }
  | some adj =>
    let k := (product_id, adj.warehouse_id)
    let s := getStock σ.stock k
    if s.on_hand + qty_change < 0 then
      { state := σ, err := some LedgerError.InsufficientStock }
    else
      { state :=
          { σ with
            stock := setStock σ.stock k
              { on_hand := s.on_hand + qty_change, avg_cost := s.avg_cost },
            movements := σ.movements ++
              [{ product_id := product_id, warehouse_id := adj.warehouse_id,
                 movement_type := MovementType.ADJUSTMENT, qty := qty_change,
                 acted_by := some acted_by, reference := adjustment_id }] },
        err := none }

/-- One ledger operation, tagged with its arguments, so that sequences of
operations can be run against a state. -/
inductive Op where
  | receive : Nat → Nat → ℚ → ℚ → Nat → Op
  | allocate : Nat → Nat → ℚ → Op
  | ship : Nat → Nat → ℚ → Nat → Op
  | adjust : Nat → Nat → ℚ → Nat → Op
deriving DecidableEq, Repr

/-- Dispatch one operation against a state. -/
def apply_op (σ : State) : Op → LResult
  | Op.receive po pid q c u => sp_receive_po_item σ po pid q c u
  | Op.allocate so pid q => sp_allocate_so_item σ so pid q
  | Op.ship so pid q u => sp_ship_so_item σ so pid q u
  | Op.adjust adj pid q u => sp_apply_adjustment_item σ adj pid q u

/-- Run a sequence of operations, keeping the state an operation leaves
behind whether it succeeded or failed. -/
def run_ops (σ : State) (ops : List Op) : State :=
  ops.foldl (fun s op => (apply_op s op).state) σ

/-- The movement_type an operation's movement record must carry. -/
def op_movement_type : Op → MovementType
  | Op.receive _ _ _ _ _ => MovementType.RECEIPT
  | Op.allocate _ _ _ => MovementType.ALLOCATION
  | Op.ship _ _ _ _ => MovementType.SALES_SHIPMENT
  | Op.adjust _ _ _ _ => MovementType.ADJUSTMENT

/-- The quantity argument of an operation (signed for adjustments). -/
def op_qty : Op → ℚ
  | Op.receive _ _ q _ _ => q
  | Op.allocate _ _ q => q
  | Op.ship _ _ q _ => q
  | Op.adjust _ _ q _ => q

/-- The change one successful invocation of an operation makes to on_hand
at its target (product, warehouse) key: +qty for a receipt, 0 for an
allocation (soft hold), -qty for a shipment, the signed qty_change for an
adjustment. -/
def op_on_hand_delta : Op → ℚ
  | Op.receive _ _ q _ _ => q
  | Op.allocate _ _ _ => 0
  | Op.ship _ _ q _ => -q
  | Op.adjust _ _ qc _ => qc

/-- The invariant of the spec: on_hand is nonnegative for every
(product, warehouse) pair. -/
def stockNonneg (σ : State) : Prop :=
  ∀ k : Nat × Nat, 0 ≤ (getStock σ.stock k).on_hand

/-- A concrete example state: product 1 at warehouse 1 holds 5 units at
average cost 10; one open PO line (100 ordered, 0 received), one SO line
(10 ordered, nothing shipped or allocated), one adjustment document. -/
def exState : State :=
  { stock := [((1, 1), { on_hand := 5, avg_cost := 10 })],
    po_lines := [{ po_id := 1, product_id := 1, warehouse_id := 1,
                   ordered_qty := 100, received_qty := 0 }],
    so_lines := [{ so_id := 1, product_id := 1, warehouse_id := 1,
                   ordered_qty := 10, shipped_qty := 0, allocated_qty := 0 }],
    adjustments := [{ adjustment_id := 1, warehouse_id := 1 }],
    movements := [] }

/-- The PO line present in `exState`. -/
def exPOLine : PurchaseOrderItem :=
  { po_id := 1, product_id := 1, warehouse_id := 1, ordered_qty := 100, received_qty := 0 }

/-- The SO line present in `exState`. -/
def exSOLine : SalesOrderItem :=
  { so_id := 1, product_id := 1, warehouse_id := 1,
    ordered_qty := 10, shipped_qty := 0, allocated_qty := 0 }

/-- The adjustment document present in `exState`. -/
def exAdjustment : Adjustment := { adjustment_id := 1, warehouse_id := 1 }

/-- A sample sequence touching all four operations, used to exercise the
nonnegativity invariant on a concrete run. -/
def exOps : List Op :=
  [Op.receive 1 1 10 5 1, Op.allocate 1 1 3, Op.ship 1 1 2 1, Op.adjust 1 1 (-4) 1]

end Inventory

namespace ProcCall

/-- The outcome of one Python sub-step of call_procedure_core: either a
normal return value or a raised exception carrying its message. -/
inductive PyOutcome (α : Type) where
  | ok : α → PyOutcome α
  | raises : String → PyOutcome α
deriving DecidableEq, Repr

/-- A result table, standing in for a pandas DataFrame built from a cursor
resultset: column names and rows of cell strings. -/
structure DataFrame where
  cols : List String
  rows : List (List String)
deriving DecidableEq, Repr

/-- One iteration of the `while cur.nextset()` loop in call_procedure_core:
the outcome of this resultset's fetchall() and the cursor description
(none models a falsy description, under which the source appends nothing).
A nextset() call that returns False or itself raises ends the loop with no
observable difference (the source swallows the exception), so the loop is
modelled by the list of iterations that did run. -/
structure NextsetStep where
  fetch : PyOutcome (List (List String))
  cols : Option (List String)
deriving DecidableEq, Repr

/-- The behaviour of the database driver during one call_procedure_core
invocation: what each sub-step returns or raises. -/
structure DBWorld where
  raw_connection : PyOutcome Unit
  open_cursor : PyOutcome Unit
  callproc : PyOutcome Unit
  first_fetch : PyOutcome (List (List String))
  first_cols : Option (List String)
  nextset_steps : List NextsetStep
  commit : PyOutcome Unit
  cursor_close : PyOutcome Unit
  conn_close : PyOutcome Unit
deriving DecidableEq, Repr

/-- The Python return value of call_procedure_core: the pair
(True, [DataFrame, ...]) or the pair (False, error message string). -/
inductive ProcReturn where
  | success : List DataFrame → ProcReturn
  | failure : String → ProcReturn
deriving DecidableEq, Repr

/-- The observable outcome of one call: the returned pair, plus whether a
cur.close() and a raw_conn.close() were attempted (the source attempts both
on every path, wrapping the failure-path attempts in try/except-pass). -/
structure ProcOutcome where
  result : ProcReturn
  cursor_close_attempted : Bool
  conn_close_attempted : Bool
deriving DecidableEq, Repr

/-- The resultset collected by the first fetchall/description block of
call_procedure_core: a fetch exception is swallowed and a falsy
description appends nothing. -/
def collect_first (f : PyOutcome (List (List String))) (d : Option (List String)) :
    List DataFrame :=
  match f with
  | PyOutcome.raises _ => []
  | PyOutcome.ok rows =>
    match d with
    | some cs => [{ cols := cs, rows := rows }]
    | none => []

/-- The resultset collected by one nextset-loop iteration (same swallowing
as the first block). -/
def collect_step (s : NextsetStep) : List DataFrame :=
  collect_first s.fetch s.cols

/-- Embedded from `call_procedure_core` in src/inventory_streamlit_app.py:
the outer try runs raw_connection, cursor creation, callproc, the two
fetch-collection blocks (whose exceptions are swallowed internally),
commit, cur.close() and raw_conn.close(); any exception escaping to the
outer except handler yields (False, str(e)) after attempted closes. -/
def call_procedure_core (w : DBWorld) : ProcOutcome :=
  match w.raw_connection with
  | PyOutcome.raises e =>
    { result := ProcReturn.failure e, cursor_close_attempted := true,
      conn_close_attempted := true }
  | PyOutcome.ok _ =>
    match w.open_cursor with
    | PyOutcome.raises e =>
      { result := ProcReturn.failure e, cursor_close_attempted := true,
        conn_close_attempted := true }
    | PyOutcome.ok _ =>
      match w.callproc with
      | PyOutcome.raises e =>
        { result := ProcReturn.failure e, cursor_close_attempted := true,
          conn_close_attempted := true }
      | PyOutcome.ok _ =>
        let resultsets :=
          collect_first w.first_fetch w.first_cols ++
            w.nextset_steps.foldr (fun s acc => collect_step s ++ acc) []
        match w.commit with
        | PyOutcome.raises e =>
          { result := ProcReturn.failure e, cursor_close_attempted := true,
            conn_close_attempted := true }
        | PyOutcome.ok _ =>
          match w.cursor_close with
          | PyOutcome.raises e =>
            { result := ProcReturn.failure e, cursor_close_attempted := true,
              conn_close_attempted := true }
          | PyOutcome.ok _ =>
            match w.conn_close with
            | PyOutcome.raises e =>
              { result := ProcReturn.failure e, cursor_close_attempted := true,
                conn_close_attempted := true }
            | PyOutcome.ok _ =>
              { result := ProcReturn.success resultsets,
                cursor_close_attempted := true, conn_close_attempted := true }

/-- True when a PyOutcome is a raised exception. -/
def did_raise {α : Type} : PyOutcome α → Bool
  | PyOutcome.ok _ => false
  | PyOutcome.raises _ => true

/-- True when the returned pair has first component True. -/
def is_success : ProcReturn → Bool
  | ProcReturn.success _ => true
  | ProcReturn.failure _ => false

/-- True when some sub-step of the invocation raised. -/
def any_step_raised (w : DBWorld) : Bool :=
  did_raise w.raw_connection || did_raise w.open_cursor || did_raise w.callproc ||
    did_raise w.first_fetch || w.nextset_steps.any (fun s => did_raise s.fetch) ||
    did_raise w.commit || did_raise w.cursor_close || did_raise w.conn_close

/-- True when every step the outer try does not internally shield raised no
exception: connection, cursor, callproc, commit and the two closes. -/
def critical_ok (w : DBWorld) : Bool :=
  !did_raise w.raw_connection && !did_raise w.open_cursor && !did_raise w.callproc &&
    !did_raise w.commit && !did_raise w.cursor_close && !did_raise w.conn_close

/-- The C10 claim stated in the spec's words, for comparison against
`call_procedure_core` as embedded from the source: (True, dataframes) when
the procedure call and the commit succeed, and (False, message) when any
step raises. -/
def claimed_c10_spec (w : DBWorld) : Prop :=
  ((did_raise w.callproc = false ∧ did_raise w.commit = false) →
      is_success (call_procedure_core w).result = true) ∧
    (any_step_raised w = true → is_success (call_procedure_core w).result = false)

/-- A driver behaviour where every step succeeds except the first
fetchall(), which raises; the source swallows that exception and still
commits and returns (True, []). -/
def fetchRaisesWorld : DBWorld :=
  { raw_connection := PyOutcome.ok (),
    open_cursor := PyOutcome.ok (),
    callproc := PyOutcome.ok (),
    first_fetch := PyOutcome.raises ("boom"),
    first_cols := none,
    nextset_steps := [],
    commit := PyOutcome.ok (),
    cursor_close := PyOutcome.ok (),
    conn_close := PyOutcome.ok () }

end ProcCall

namespace Inventory

theorem getStock_setStock_same (s : List ((Nat × Nat) × StockLevel)) (k : Nat × Nat)
    (v : StockLevel) : getStock (setStock s k v) k = v := by
  simp [getStock, setStock]

theorem find?_filter_key (s : List ((Nat × Nat) × StockLevel)) (k k' : Nat × Nat)
    (h : ¬ k' = k) :
    (s.filter (fun e => decide (¬ e.1 = k))).find? (fun e => decide (e.1 = k')) =
      s.find? (fun e => decide (e.1 = k')) := by
  induction s with
  | nil => rfl
  | cons a t ih =>
    rw [List.filter_cons]
    by_cases hb : a.1 = k
    · have ha : ¬ a.1 = k' := by
        rw [hb]; intro hh; exact h hh.symm
      rw [if_neg (by simp [hb]), List.find?_cons_of_neg _ (by simp [ha]), ih]
    · by_cases ha : a.1 = k'
      · rw [if_pos (by simp [hb]), List.find?_cons_of_pos _ (by simp [ha]),
          List.find?_cons_of_pos _ (by simp [ha])]
      · rw [if_pos (by simp [hb]), List.find?_cons_of_neg _ (by simp [ha]),
          List.find?_cons_of_neg _ (by simp [ha]), ih]

theorem getStock_setStock_ne (s : List ((Nat × Nat) × StockLevel)) (k k' : Nat × Nat)
    (v : StockLevel) (h : ¬ k' = k) :
    getStock (setStock s k v) k' = getStock s k' := by
  unfold getStock setStock
  rw [List.find?_cons_of_neg, find?_filter_key s k k' h]
  simp only [decide_eq_true_eq]
  intro hh
  exact h hh.symm

theorem sp_receive_ok (σ : State) (po pid : Nat) (qty cost : ℚ) (u : Nat)
    (line : PurchaseOrderItem) (hfind : find_po_line σ po pid = some line)
    (h1 : 0 < qty) (h2 : 0 ≤ cost)
    (h3 : qty ≤ line.ordered_qty - line.received_qty) :
    sp_receive_po_item σ po pid qty cost u =
      { state :=
          { σ with
            stock := setStock σ.stock (pid, line.warehouse_id)
              { on_hand := (getStock σ.stock (pid, line.warehouse_id)).on_hand + qty,
                avg_cost :=
                  ((getStock σ.stock (pid, line.warehouse_id)).on_hand *
                      (getStock σ.stock (pid, line.warehouse_id)).avg_cost + qty * cost) /
                    ((getStock σ.stock (pid, line.warehouse_id)).on_hand + qty) },
            po_lines := update_po_line σ.po_lines po pid qty,
            movements := σ.movements ++
              [{ product_id := pid, warehouse_id := line.warehouse_id,
                 movement_type := MovementType.RECEIPT, qty := qty,
                 acted_by := some u, reference := po }] },
        err := none } := by
  unfold sp_receive_po_item
  rw [hfind]
  simp only [if_neg (not_le.mpr h1), if_neg (not_lt.mpr h2), if_neg (not_lt.mpr h3)]

theorem sp_allocate_ok (σ : State) (so pid : Nat) (qty : ℚ)
    (line : SalesOrderItem) (hfind : find_so_line σ so pid = some line)
    (h1 : 0 < qty)
    (h2 : qty ≤ (getStock σ.stock (pid, line.warehouse_id)).on_hand - line.allocated_qty) :
    sp_allocate_so_item σ so pid qty =
      { state :=
          { σ with
            so_lines := update_so_line σ.so_lines so pid
              (fun l => { l with allocated_qty := l.allocated_qty + qty }),
            movements := σ.movements ++
              [{ product_id := pid, warehouse_id := line.warehouse_id,
                 movement_type := MovementType.ALLOCATION, qty := qty,
                 acted_by := none, reference := so }] },
        err := none } := by
  unfold sp_allocate_so_item
  rw [hfind]
  simp only [if_neg (not_le.mpr h1), if_neg (not_lt.mpr h2)]

theorem sp_ship_ok (σ : State) (so pid : Nat) (qty : ℚ) (u : Nat)
    (line : SalesOrderItem) (hfind : find_so_line σ so pid = some line)
    (h1 : 0 < qty)
    (h2 : qty ≤ (getStock σ.stock (pid, line.warehouse_id)).on_hand)
    (h3 : qty ≤ line.ordered_qty - line.shipped_qty) :
    sp_ship_so_item σ so pid qty u =
      { state :=
          { σ with
            stock := setStock σ.stock (pid, line.warehouse_id)
              { on_hand := (getStock σ.stock (pid, line.warehouse_id)).on_hand - qty,
                avg_cost := (getStock σ.stock (pid, line.warehouse_id)).avg_cost },
            so_lines := update_so_line σ.so_lines so pid
              (fun l => { l with shipped_qty := l.shipped_qty + qty,
                                 allocated_qty := max (l.allocated_qty - qty) 0 }),
            movements := σ.movements ++
              [{ product_id := pid, warehouse_id := line.warehouse_id,
                 movement_type := MovementType.SALES_SHIPMENT, qty := qty,
                 acted_by := some u, reference := so }] },
        err := none } := by
  unfold sp_ship_so_item
  rw [hfind]
  simp only [if_neg (not_le.mpr h1), if_neg (not_lt.mpr h2), if_neg (not_lt.mpr h3)]

theorem sp_ship_insufficient (σ : State) (so pid : Nat) (qty : ℚ) (u : Nat)
    (line : SalesOrderItem) (hfind : find_so_line σ so pid = some line)
    (h1 : 0 < qty)
    (h2 : (getStock σ.stock (pid, line.warehouse_id)).on_hand < qty) :
    sp_ship_so_item σ so pid qty u =
      { state := σ, err := some LedgerError.InsufficientStock } := by
  unfold sp_ship_so_item
  rw [hfind]
  simp only [if_neg (not_le.mpr h1), if_pos h2]

theorem sp_adjust_ok (σ : State) (adj pid : Nat) (qc : ℚ) (u : Nat)
    (doc : Adjustment) (hfind : find_adjustment σ adj = some doc)
    (h : 0 ≤ (getStock σ.stock (pid, doc.warehouse_id)).on_hand + qc) :
    sp_apply_adjustment_item σ adj pid qc u =
      { state :=
          { σ with
            stock := setStock σ.stock (pid, doc.warehouse_id)
              { on_hand := (getStock σ.stock (pid, doc.warehouse_id)).on_hand + qc,
                avg_cost := (getStock σ.stock (pid, doc.warehouse_id)).avg_cost },
            movements := σ.movements ++
              [{ product_id := pid, warehouse_id := doc.warehouse_id,
                 movement_type := MovementType.ADJUSTMENT, qty := qc,
                 acted_by := some u, reference := adj }] },
        err := none } := by
  unfold sp_apply_adjustment_item
  rw [hfind]
  simp only [if_neg (not_lt.mpr h)]

theorem find?_update_po_line (ls : List PurchaseOrderItem) (a b : Nat) (q : ℚ) :
    (update_po_line ls a b q).find?
        (fun l => decide (l.po_id = a ∧ l.product_id = b)) =
      (ls.find? (fun l => decide (l.po_id = a ∧ l.product_id = b))).map
        (fun l => { l with received_qty := l.received_qty + q }) := by
  induction ls with
  | nil => rfl
  | cons x t ih =>
    simp only [update_po_line, List.map_cons] at ih ⊢
    by_cases hx : x.po_id = a ∧ x.product_id = b
    · rw [if_pos hx, List.find?_cons_of_pos _ (by simp [hx.1, hx.2]),
        List.find?_cons_of_pos _ (by simp [hx.1, hx.2])]
      rfl
    · rw [if_neg hx, List.find?_cons_of_neg _ (by simpa using hx),
        List.find?_cons_of_neg _ (by simpa using hx), ih]

theorem find?_update_so_line (ls : List SalesOrderItem) (a b : Nat)
    (f : SalesOrderItem → SalesOrderItem)
    (hf : ∀ l, (f l).so_id = l.so_id ∧ (f l).product_id = l.product_id)
    (line : SalesOrderItem)
    (hfind : ls.find? (fun l => decide (l.so_id = a ∧ l.product_id = b)) = some line) :
    (update_so_line ls a b f).find?
        (fun l => decide (l.so_id = a ∧ l.product_id = b)) = some (f line) := by
  induction ls with
  | nil => simp at hfind
  | cons x t ih =>
    simp only [update_so_line, List.map_cons]
    by_cases hx : x.so_id = a ∧ x.product_id = b
    · rw [List.find?_cons_of_pos _ (by simp [hx.1, hx.2])] at hfind
      have hxl : x = line := Option.some.inj hfind
      subst hxl
      rw [if_pos hx,
        List.find?_cons_of_pos _ (by simp [(hf x).1, (hf x).2, hx.1, hx.2])]
    · rw [List.find?_cons_of_neg _ (by simpa using hx)] at hfind
      rw [if_neg hx, List.find?_cons_of_neg _ (by simpa using hx)]
      exact ih hfind

theorem sp_allocate_stock (σ : State) (so pid : Nat) (q : ℚ) :
    (sp_allocate_so_item σ so pid q).state.stock = σ.stock := by
  unfold sp_allocate_so_item
  cases find_so_line σ so pid with
  | none => rfl
  | some line =>
    by_cases h1 : q ≤ 0
    · simp only [if_pos h1]
    · simp only [if_neg h1]
      by_cases h2 :
          (getStock σ.stock (pid, line.warehouse_id)).on_hand - line.allocated_qty < q
      · simp only [if_pos h2]
      · simp only [if_neg h2]

theorem sp_ship_avg_cost (σ : State) (so pid : Nat) (q : ℚ) (u : Nat) (k : Nat × Nat) :
    (getStock (sp_ship_so_item σ so pid q u).state.stock k).avg_cost =
      (getStock σ.stock k).avg_cost := by
  unfold sp_ship_so_item
  cases find_so_line σ so pid with
  | none => rfl
  | some line =>
    by_cases h1 : q ≤ 0
    · simp only [if_pos h1]
    · simp only [if_neg h1]
      by_cases h2 : (getStock σ.stock (pid, line.warehouse_id)).on_hand < q
      · simp only [if_pos h2]
      · simp only [if_neg h2]
        by_cases h3 : line.ordered_qty - line.shipped_qty < q
        · simp only [if_pos h3]
        · simp only [if_neg h3]
          by_cases hk : k = (pid, line.warehouse_id)
          · rw [hk, getStock_setStock_same]
          · show (getStock (setStock σ.stock (pid, line.warehouse_id) _ ) k).avg_cost = _
            rw [getStock_setStock_ne _ _ _ _ hk]

theorem sp_adjust_avg_cost (σ : State) (adj pid : Nat) (qc : ℚ) (u : Nat) (k : Nat × Nat) :
    (getStock (sp_apply_adjustment_item σ adj pid qc u).state.stock k).avg_cost =
      (getStock σ.stock k).avg_cost := by
  unfold sp_apply_adjustment_item
  cases find_adjustment σ adj with
  | none => rfl
  | some doc =>
    by_cases h1 : (getStock σ.stock (pid, doc.warehouse_id)).on_hand + qc < 0
    · simp only [if_pos h1]
    · simp only [if_neg h1]
      by_cases hk : k = (pid, doc.warehouse_id)
      · rw [hk, getStock_setStock_same]
      · show (getStock (setStock σ.stock (pid, doc.warehouse_id) _ ) k).avg_cost = _
        rw [getStock_setStock_ne _ _ _ _ hk]

theorem apply_op_nonneg (σ : State) (op : Op) (h : stockNonneg σ) :
    stockNonneg (apply_op σ op).state := by
  cases op with
  | receive po pid q c u =>
    show stockNonneg (sp_receive_po_item σ po pid q c u).state
    unfold sp_receive_po_item
    cases find_po_line σ po pid with
    | none => exact h
    | some line =>
      by_cases h1 : q ≤ 0
      · simp only [if_pos h1]; exact h
      · simp only [if_neg h1]
        by_cases h2 : c < 0
        · simp only [if_pos h2]; exact h
        · simp only [if_neg h2]
          by_cases h3 : line.ordered_qty - line.received_qty < q
          · simp only [if_pos h3]; exact h
          · simp only [if_neg h3]
            intro k
            by_cases hk : k = (pid, line.warehouse_id)
            · show 0 ≤ (getStock (setStock σ.stock (pid, line.warehouse_id) _ ) k).on_hand
              rw [hk, getStock_setStock_same]
              have hq : 0 < q := not_le.mp h1
              have hone := h (pid, line.warehouse_id)
              show 0 ≤ (getStock σ.stock (pid, line.warehouse_id)).on_hand + q
              linarith
            · show 0 ≤ (getStock (setStock σ.stock (pid, line.warehouse_id) _ ) k).on_hand
              rw [getStock_setStock_ne _ _ _ _ hk]
              exact h k
  | allocate so pid q =>
    intro k
    show 0 ≤ (getStock (sp_allocate_so_item σ so pid q).state.stock k).on_hand
    rw [sp_allocate_stock σ so pid q]
    exact h k
  | ship so pid q u =>
    show stockNonneg (sp_ship_so_item σ so pid q u).state
    unfold sp_ship_so_item
    cases find_so_line σ so pid with
    | none => exact h
    | some line =>
      by_cases h1 : q ≤ 0
      · simp only [if_pos h1]; exact h
      · simp only [if_neg h1]
        by_cases h2 : (getStock σ.stock (pid, line.warehouse_id)).on_hand < q
        · simp only [if_pos h2]; exact h
        · simp only [if_neg h2]
          by_cases h3 : line.ordered_qty - line.shipped_qty < q
          · simp only [if_pos h3]; exact h
          · simp only [if_neg h3]
            intro k
            by_cases hk : k = (pid, line.warehouse_id)
            · show 0 ≤ (getStock (setStock σ.stock (pid, line.warehouse_id) _ ) k).on_hand
              rw [hk, getStock_setStock_same]
              have hq : q ≤ (getStock σ.stock (pid, line.warehouse_id)).on_hand :=
                not_lt.mp h2
              show 0 ≤ (getStock σ.stock (pid, line.warehouse_id)).on_hand - q
              linarith
            · show 0 ≤ (getStock (setStock σ.stock (pid, line.warehouse_id) _ ) k).on_hand
              rw [getStock_setStock_ne _ _ _ _ hk]
              exact h k
  | adjust adj pid qc u =>
    show stockNonneg (sp_apply_adjustment_item σ adj pid qc u).state
    unfold sp_apply_adjustment_item
    cases find_adjustment σ adj with
    | none => exact h
    | some doc =>
      by_cases h1 : (getStock σ.stock (pid, doc.warehouse_id)).on_hand + qc < 0
      · simp only [if_pos h1]; exact h
      · simp only [if_neg h1]
        intro k
        by_cases hk : k = (pid, doc.warehouse_id)
        · show 0 ≤ (getStock (setStock σ.stock (pid, doc.warehouse_id) _ ) k).on_hand
          rw [hk, getStock_setStock_same]
          exact not_lt.mp h1
        · show 0 ≤ (getStock (setStock σ.stock (pid, doc.warehouse_id) _ ) k).on_hand
          rw [getStock_setStock_ne _ _ _ _ hk]
          exact h k

theorem run_ops_nonneg_aux (ops : List Op) (σ : State) (h : stockNonneg σ) :
    stockNonneg (run_ops σ ops) := by
  induction ops generalizing σ with
  | nil => exact h
  | cons op rest ih => exact ih _ (apply_op_nonneg σ op h)

theorem stockNonneg_of_all (σ : State)
    (h : σ.stock.all (fun e => decide (0 ≤ e.2.on_hand)) = true) : stockNonneg σ := by
  intro k
  unfold getStock
  cases hf : σ.stock.find? (fun e => decide (e.1 = k)) with
  | none => exact le_refl 0
  | some e =>
    have hmem : e ∈ σ.stock := List.mem_of_find?_eq_some hf
    have := (List.all_eq_true.mp h) e hmem
    simpa using this

theorem sp_adjust_insufficient (σ : State) (adj pid : Nat) (qc : ℚ) (u : Nat)
    (doc : Adjustment) (hfind : find_adjustment σ adj = some doc)
    (h : (getStock σ.stock (pid, doc.warehouse_id)).on_hand + qc < 0) :
    sp_apply_adjustment_item σ adj pid qc u =
      { state := σ, err := some LedgerError.InsufficientStock } := by
  unfold sp_apply_adjustment_item
  rw [hfind]
  simp only [if_pos h]

theorem sp_receive_err_or (σ : State) (po pid : Nat) (q c : ℚ) (u : Nat) :
    (sp_receive_po_item σ po pid q c u).err ≠ none ∨
      ∃ line, find_po_line σ po pid = some line ∧ 0 < q ∧ 0 ≤ c ∧
        q ≤ line.ordered_qty - line.received_qty := by
  cases hfind : find_po_line σ po pid with
  | none =>
    left; unfold sp_receive_po_item; rw [hfind]; simp
  | some line =>
    by_cases h1 : q ≤ 0
    · left; unfold sp_receive_po_item; rw [hfind]; simp [if_pos h1]
    · by_cases h2 : c < 0
      · left; unfold sp_receive_po_item; rw [hfind]
        simp [if_neg h1, if_pos h2]
      · by_cases h3 : line.ordered_qty - line.received_qty < q
        · left; unfold sp_receive_po_item; rw [hfind]
          simp [if_neg h1, if_neg h2, if_pos h3]
        · right; exact ⟨line, rfl, not_le.mp h1, not_lt.mp h2, not_lt.mp h3⟩

theorem sp_allocate_err_or (σ : State) (so pid : Nat) (q : ℚ) :
    (sp_allocate_so_item σ so pid q).err ≠ none ∨
      ∃ line, find_so_line σ so pid = some line ∧ 0 < q ∧
        q ≤ (getStock σ.stock (pid, line.warehouse_id)).on_hand - line.allocated_qty := by
  cases hfind : find_so_line σ so pid with
  | none =>
    left; unfold sp_allocate_so_item; rw [hfind]; simp
  | some line =>
    by_cases h1 : q ≤ 0
    · left; unfold sp_allocate_so_item; rw [hfind]; simp [if_pos h1]
    · by_cases h2 :
          (getStock σ.stock (pid, line.warehouse_id)).on_hand - line.allocated_qty < q
      · left; unfold sp_allocate_so_item; rw [hfind]
        simp [if_neg h1, if_pos h2]
      · right; exact ⟨line, rfl, not_le.mp h1, not_lt.mp h2⟩

theorem sp_ship_err_or (σ : State) (so pid : Nat) (q : ℚ) (u : Nat) :
    (sp_ship_so_item σ so pid q u).err ≠ none ∨
      ∃ line, find_so_line σ so pid = some line ∧ 0 < q ∧
        q ≤ (getStock σ.stock (pid, line.warehouse_id)).on_hand ∧
        q ≤ line.ordered_qty - line.shipped_qty := by
  cases hfind : find_so_line σ so pid with
  | none =>
    left; unfold sp_ship_so_item; rw [hfind]; simp
  | some line =>
    by_cases h1 : q ≤ 0
    · left; unfold sp_ship_so_item; rw [hfind]; simp [if_pos h1]
    · by_cases h2 : (getStock σ.stock (pid, line.warehouse_id)).on_hand < q
      · left; unfold sp_ship_so_item; rw [hfind]
        simp [if_neg h1, if_pos h2]
      · by_cases h3 : line.ordered_qty - line.shipped_qty < q
        · left; unfold sp_ship_so_item; rw [hfind]
          simp [if_neg h1, if_neg h2, if_pos h3]
        · right; exact ⟨line, rfl, not_le.mp h1, not_lt.mp h2, not_lt.mp h3⟩

theorem sp_adjust_err_or (σ : State) (adj pid : Nat) (qc : ℚ) (u : Nat) :
    (sp_apply_adjustment_item σ adj pid qc u).err ≠ none ∨
      ∃ doc, find_adjustment σ adj = some doc ∧
        0 ≤ (getStock σ.stock (pid, doc.warehouse_id)).on_hand + qc := by
  cases hfind : find_adjustment σ adj with
  | none =>
    left; unfold sp_apply_adjustment_item; rw [hfind]; simp
  | some doc =>
    by_cases h1 : (getStock σ.stock (pid, doc.warehouse_id)).on_hand + qc < 0
    · left; unfold sp_apply_adjustment_item; rw [hfind]; simp [if_pos h1]
    · right; exact ⟨doc, rfl, not_lt.mp h1⟩

end Inventory

namespace Inventory

/-- C1: every valid ReceivePOItem call (the addressed PO line exists,
qty > 0, unit_cost ≥ 0, remaining ordered quantity at least qty) succeeds,
increments on_hand at the PO's destination warehouse by exactly qty, and
sets avg_cost to the weighted average
(old_on_hand * old_avg_cost + qty * unit_cost) / (old_on_hand + qty). -/
theorem receive_po_item_weighted_average (σ : State) (po pid : Nat) (qty cost : ℚ)
    (u : Nat) (line : PurchaseOrderItem)
    (hfind : find_po_line σ po pid = some line)
    (h1 : 0 < qty) (h2 : 0 ≤ cost)
    (h3 : qty ≤ line.ordered_qty - line.received_qty) :
    (sp_receive_po_item σ po pid qty cost u).err = none ∧
      (getStock (sp_receive_po_item σ po pid qty cost u).state.stock
          (pid, line.warehouse_id)).on_hand =
        (getStock σ.stock (pid, line.warehouse_id)).on_hand + qty ∧
      (getStock (sp_receive_po_item σ po pid qty cost u).state.stock
          (pid, line.warehouse_id)).avg_cost =
        ((getStock σ.stock (pid, line.warehouse_id)).on_hand *
            (getStock σ.stock (pid, line.warehouse_id)).avg_cost + qty * cost) /
          ((getStock σ.stock (pid, line.warehouse_id)).on_hand + qty) := by
  rw [sp_receive_ok σ po pid qty cost u line hfind h1 h2 h3]
  refine ⟨rfl, ?_, ?_⟩
  · show (getStock (setStock σ.stock (pid, line.warehouse_id) _ ) _ ).on_hand = _
    rw [getStock_setStock_same]
  · show (getStock (setStock σ.stock (pid, line.warehouse_id) _ ) _ ).avg_cost = _
    rw [getStock_setStock_same]

/-- Witness for C1 at the spec's own example: receiving qty 10 at unit
cost 5 into on_hand 5 at avg_cost 10 gives on_hand 15 and avg_cost 20/3. -/
theorem receive_po_item_weighted_average_witness :
    (find_po_line exState 1 1 = some exPOLine ∧ (0 : ℚ) < 10 ∧ (0 : ℚ) ≤ 5 ∧
        (10 : ℚ) ≤ exPOLine.ordered_qty - exPOLine.received_qty) ∧
      ((sp_receive_po_item exState 1 1 10 5 1).err = none ∧
        (getStock (sp_receive_po_item exState 1 1 10 5 1).state.stock
            (1, exPOLine.warehouse_id)).on_hand =
          (getStock exState.stock (1, exPOLine.warehouse_id)).on_hand + 10 ∧
        (getStock (sp_receive_po_item exState 1 1 10 5 1).state.stock
            (1, exPOLine.warehouse_id)).avg_cost =
          ((getStock exState.stock (1, exPOLine.warehouse_id)).on_hand *
              (getStock exState.stock (1, exPOLine.warehouse_id)).avg_cost + 10 * 5) /
            ((getStock exState.stock (1, exPOLine.warehouse_id)).on_hand + 10)) ∧
      (getStock (sp_receive_po_item exState 1 1 10 5 1).state.stock (1, 1)).on_hand = 15 ∧
      (getStock (sp_receive_po_item exState 1 1 10 5 1).state.stock (1, 1)).avg_cost =
        20 / 3 := by
  have hrem : (10 : ℚ) ≤ exPOLine.ordered_qty - exPOLine.received_qty := by
    show (10 : ℚ) ≤ 100 - 0
    norm_num
  have main := receive_po_item_weighted_average exState 1 1 10 5 1 exPOLine rfl
    (by norm_num) (by norm_num) hrem
  refine ⟨⟨rfl, by norm_num, by norm_num, hrem⟩, main, ?_, ?_⟩
  · rw [show ((1 : Nat), (1 : Nat)) = (1, exPOLine.warehouse_id) from rfl, main.2.1]
    show (5 : ℚ) + 10 = 15
    norm_num
  · rw [show ((1 : Nat), (1 : Nat)) = (1, exPOLine.warehouse_id) from rfl, main.2.2]
    show ((5 : ℚ) * 10 + 10 * 5) / (5 + 10) = 20 / 3
    norm_num

/-- C2: for any state satisfying the nonnegative-stock reading of
StockLevel (0 ≤ on_hand at the addressed key), a ShipSOItem call whose qty
exceeds on_hand at the SO's warehouse fails with InsufficientStock and
returns the state unchanged (same stock, same movements, same
shipped_qty). -/
theorem ship_so_item_insufficient_stock (σ : State) (so pid : Nat) (qty : ℚ) (u : Nat)
    (line : SalesOrderItem) (hfind : find_so_line σ so pid = some line)
    (hinv : 0 ≤ (getStock σ.stock (pid, line.warehouse_id)).on_hand)
    (hq : (getStock σ.stock (pid, line.warehouse_id)).on_hand < qty) :
    sp_ship_so_item σ so pid qty u =
      { state := σ, err := some LedgerError.InsufficientStock } :=
  sp_ship_insufficient σ so pid qty u line hfind (lt_of_le_of_lt hinv hq) hq

/-- Witness for C2: shipping 6 units when only 5 are on hand fails with
InsufficientStock and leaves the state untouched. -/
theorem ship_so_item_insufficient_stock_witness :
    (find_so_line exState 1 1 = some exSOLine ∧
        0 ≤ (getStock exState.stock (1, exSOLine.warehouse_id)).on_hand ∧
        (getStock exState.stock (1, exSOLine.warehouse_id)).on_hand < 6) ∧
      sp_ship_so_item exState 1 1 6 1 =
        { state := exState, err := some LedgerError.InsufficientStock } :=
  ⟨⟨rfl, by show (0 : ℚ) ≤ 5; norm_num, by show (5 : ℚ) < 6; norm_num⟩,
    ship_so_item_insufficient_stock exState 1 1 6 1 exSOLine rfl
      (by show (0 : ℚ) ≤ 5; norm_num) (by show (5 : ℚ) < 6; norm_num)⟩

/-- C3: an ApplyAdjustmentItem call whose qty_change would drive on_hand
below zero at the adjustment's warehouse fails with InsufficientStock and
returns the state unchanged. -/
theorem apply_adjustment_item_insufficient_stock (σ : State) (adj pid : Nat) (qc : ℚ)
    (u : Nat) (doc : Adjustment) (hfind : find_adjustment σ adj = some doc)
    (h : (getStock σ.stock (pid, doc.warehouse_id)).on_hand + qc < 0) :
    sp_apply_adjustment_item σ adj pid qc u =
      { state := σ, err := some LedgerError.InsufficientStock } :=
  sp_adjust_insufficient σ adj pid qc u doc hfind h

/-- Witness for C3 at the spec's example: qty_change -1000 on on_hand 5
fails with InsufficientStock; on_hand stays 5. -/
theorem apply_adjustment_item_insufficient_stock_witness :
    (find_adjustment exState 1 = some exAdjustment ∧
        (getStock exState.stock (1, exAdjustment.warehouse_id)).on_hand + (-1000) < 0) ∧
      sp_apply_adjustment_item exState 1 1 (-1000) 1 =
        { state := exState, err := some LedgerError.InsufficientStock } ∧
      (getStock (sp_apply_adjustment_item exState 1 1 (-1000) 1).state.stock
          (1, 1)).on_hand = 5 :=
 by
  have hlt : (getStock exState.stock (1, exAdjustment.warehouse_id)).on_hand +
      (-1000 : ℚ) < 0 := by
    show (5 : ℚ) + (-1000) < 0
    norm_num
  have main := apply_adjustment_item_insufficient_stock exState 1 1 (-1000) 1
    exAdjustment rfl hlt
  refine ⟨⟨rfl, hlt⟩, main, ?_⟩
  rw [main]
  rfl

/-- C5: AllocateSOItem never changes the stock table (so it never
decrements on_hand), whether the call succeeds or fails; its only ledger
trace is possibly one appended ALLOCATION movement of the requested qty. -/
theorem allocate_so_item_never_reduces_on_hand (σ : State) (so pid : Nat) (q : ℚ) :
    (sp_allocate_so_item σ so pid q).state.stock = σ.stock ∧
      ((sp_allocate_so_item σ so pid q).state.movements = σ.movements ∨
        ∃ m : InventoryMovement,
          (sp_allocate_so_item σ so pid q).state.movements = σ.movements ++ [m] ∧
            m.movement_type = MovementType.ALLOCATION ∧ m.qty = q) := by
  refine ⟨sp_allocate_stock σ so pid q, ?_⟩
  unfold sp_allocate_so_item
  cases find_so_line σ so pid with
  | none => left; rfl
  | some line =>
    by_cases h1 : q ≤ 0
    · left; simp only [if_pos h1]
    · simp only [if_neg h1]
      by_cases h2 :
          (getStock σ.stock (pid, line.warehouse_id)).on_hand - line.allocated_qty < q
      · left; simp only [if_pos h2]
      · right
        simp only [if_neg h2]
        exact ⟨_, rfl, rfl, rfl⟩

/-- C7: avg_cost is untouched by ShipSOItem, ApplyAdjustmentItem and
AllocateSOItem at every (product, warehouse) key; only ReceivePOItem
recomputes it. -/
theorem avg_cost_changed_only_by_receipt (σ : State) (so adj pid : Nat) (q qc : ℚ)
    (u : Nat) (k : Nat × Nat) :
    (getStock (sp_ship_so_item σ so pid q u).state.stock k).avg_cost =
        (getStock σ.stock k).avg_cost ∧
      (getStock (sp_apply_adjustment_item σ adj pid qc u).state.stock k).avg_cost =
        (getStock σ.stock k).avg_cost ∧
      (getStock (sp_allocate_so_item σ so pid q).state.stock k).avg_cost =
        (getStock σ.stock k).avg_cost :=
  ⟨sp_ship_avg_cost σ so pid q u k, sp_adjust_avg_cost σ adj pid qc u k, by
    rw [sp_allocate_stock σ so pid q]⟩

end Inventory

namespace Inventory

/-- C4: starting from any state in which on_hand is nonnegative at every
(product, warehouse) key, running any sequence of the four ledger
operations keeps on_hand nonnegative at every key; since every prefix is
itself such a sequence, on_hand is nonnegative after each operation. -/
theorem on_hand_stays_nonneg (σ : State) (ops : List Op) (h : stockNonneg σ) :
    stockNonneg (run_ops σ ops) :=
  run_ops_nonneg_aux ops σ h

/-- Witness for C4: the invariant holds on the example state and is kept
by a concrete run of receive, allocate, ship and a negative adjustment. -/
theorem on_hand_stays_nonneg_witness :
    stockNonneg exState ∧ stockNonneg (run_ops exState exOps) :=
  have h0 : stockNonneg exState := stockNonneg_of_all exState (by decide)
  ⟨h0, on_hand_stays_nonneg exState exOps h0⟩

/-- C6: every successful mutating call appends exactly one movement to the
log, with the operation's movement_type, the call's quantity as its qty
(positive for RECEIPT, ALLOCATION and SALES_SHIPMENT, signed for
ADJUSTMENT), and with every previously logged record preserved. -/
theorem successful_op_appends_one_movement (σ : State) (op : Op)
    (h : (apply_op σ op).err = none) :
    ∃ m : InventoryMovement,
      (apply_op σ op).state.movements = σ.movements ++ [m] ∧
        m.movement_type = op_movement_type op ∧ m.qty = op_qty op ∧
        (op_movement_type op ≠ MovementType.ADJUSTMENT → 0 < m.qty) := by
  cases op with
  | receive po pid q c u =>
    rcases sp_receive_err_or σ po pid q c u with hne | ⟨line, hfind, h1, h2, h3⟩
    · exact absurd h hne
    · show ∃ m, (sp_receive_po_item σ po pid q c u).state.movements = σ.movements ++ [m] ∧
        m.movement_type = MovementType.RECEIPT ∧ m.qty = q ∧
        (MovementType.RECEIPT ≠ MovementType.ADJUSTMENT → 0 < m.qty)
      rw [sp_receive_ok σ po pid q c u line hfind h1 h2 h3]
      exact ⟨_, rfl, rfl, rfl, fun _ => h1⟩
  | allocate so pid q =>
    rcases sp_allocate_err_or σ so pid q with hne | ⟨line, hfind, h1, h2⟩
    · exact absurd h hne
    · show ∃ m, (sp_allocate_so_item σ so pid q).state.movements = σ.movements ++ [m] ∧
        m.movement_type = MovementType.ALLOCATION ∧ m.qty = q ∧
        (MovementType.ALLOCATION ≠ MovementType.ADJUSTMENT → 0 < m.qty)
      rw [sp_allocate_ok σ so pid q line hfind h1 h2]
      exact ⟨_, rfl, rfl, rfl, fun _ => h1⟩
  | ship so pid q u =>
    rcases sp_ship_err_or σ so pid q u with hne | ⟨line, hfind, h1, h2, h3⟩
    · exact absurd h hne
    · show ∃ m, (sp_ship_so_item σ so pid q u).state.movements = σ.movements ++ [m] ∧
        m.movement_type = MovementType.SALES_SHIPMENT ∧ m.qty = q ∧
        (MovementType.SALES_SHIPMENT ≠ MovementType.ADJUSTMENT → 0 < m.qty)
      rw [sp_ship_ok σ so pid q u line hfind h1 h2 h3]
      exact ⟨_, rfl, rfl, rfl, fun _ => h1⟩
  | adjust adj pid qc u =>
    rcases sp_adjust_err_or σ adj pid qc u with hne | ⟨doc, hfind, h1⟩
    · exact absurd h hne
    · show ∃ m, (sp_apply_adjustment_item σ adj pid qc u).state.movements =
            σ.movements ++ [m] ∧
          m.movement_type = MovementType.ADJUSTMENT ∧ m.qty = qc ∧
          (MovementType.ADJUSTMENT ≠ MovementType.ADJUSTMENT → 0 < m.qty)
      rw [sp_adjust_ok σ adj pid qc u doc hfind h1]
      exact ⟨_, rfl, rfl, rfl, fun hctr => absurd rfl hctr⟩

/-- Witness for C6: a successful allocation on the example state appends
exactly one ALLOCATION movement. -/
theorem successful_op_appends_one_movement_witness :
    (apply_op exState (Op.allocate 1 1 3)).err = none ∧
      ∃ m : InventoryMovement,
        (apply_op exState (Op.allocate 1 1 3)).state.movements =
            exState.movements ++ [m] ∧
          m.movement_type = op_movement_type (Op.allocate 1 1 3) ∧
          m.qty = op_qty (Op.allocate 1 1 3) ∧
          (op_movement_type (Op.allocate 1 1 3) ≠ MovementType.ADJUSTMENT →
            0 < m.qty) := by
  have e := sp_allocate_ok exState 1 1 3 exSOLine rfl (by norm_num)
    (by show (3 : ℚ) ≤ 5 - 0; norm_num)
  have h : (apply_op exState (Op.allocate 1 1 3)).err = none := by
    show (sp_allocate_so_item exState 1 1 3).err = none
    rw [e]
  exact ⟨h, successful_op_appends_one_movement exState (Op.allocate 1 1 3) h⟩

/-- C8: the ledger is idempotency-naive for every mutating operation:
whenever the same operation with identical arguments succeeds twice in a
row, its effect is applied twice — the movement log gains two records of
the operation's movement_type and quantity, and on_hand at the
operation's target key moves by twice the per-call delta (qty for a
receipt, 0 for an allocation, -qty for a shipment, qty_change for an
adjustment) while every other key is unchanged; no deduplication of
repeated invocations occurs. -/
theorem mutating_op_twice_double_applies (σ : State) (op : Op)
    (h1 : (apply_op σ op).err = none)
    (h2 : (apply_op (apply_op σ op).state op).err = none) :
    (∃ m1 m2 : InventoryMovement,
        (apply_op (apply_op σ op).state op).state.movements =
            σ.movements ++ [m1, m2] ∧
          m1.movement_type = op_movement_type op ∧
          m2.movement_type = op_movement_type op ∧
          m1.qty = op_qty op ∧ m2.qty = op_qty op) ∧
      ∃ k : Nat × Nat, ∀ k' : Nat × Nat,
        (getStock (apply_op (apply_op σ op).state op).state.stock k').on_hand =
          (getStock σ.stock k').on_hand +
            (if k' = k then 2 * op_on_hand_delta op else 0) := by
  cases op with
  | receive po pid q c u =>
    rcases sp_receive_err_or σ po pid q c u with hne | ⟨line, hfind, hq, hc, hrem⟩
    · exact absurd h1 hne
    have e1 := sp_receive_ok σ po pid q c u line hfind hq hc hrem
    have hfind2 : find_po_line (sp_receive_po_item σ po pid q c u).state po pid =
        some { line with received_qty := line.received_qty + q } := by
      rw [e1]
      show (update_po_line σ.po_lines po pid q).find?
          (fun l => decide (l.po_id = po ∧ l.product_id = pid)) = _
      rw [find?_update_po_line]
      unfold find_po_line at hfind
      rw [hfind]
      rfl
    rcases sp_receive_err_or (sp_receive_po_item σ po pid q c u).state po pid q c u with
      hne2 | ⟨line2, hfind2', hq2, hc2, hrem2⟩
    · exact absurd h2 hne2
    rw [hfind2] at hfind2'
    have hl := Option.some.inj hfind2'
    subst hl
    have e2 := sp_receive_ok (sp_receive_po_item σ po pid q c u).state po pid q c u
      _ hfind2 hq2 hc2 hrem2
    constructor
    · show ∃ m1 m2, (sp_receive_po_item (sp_receive_po_item σ po pid q c u).state
            po pid q c u).state.movements = σ.movements ++ [m1, m2] ∧
          m1.movement_type = MovementType.RECEIPT ∧
          m2.movement_type = MovementType.RECEIPT ∧ m1.qty = q ∧ m2.qty = q
      refine ⟨⟨pid, line.warehouse_id, MovementType.RECEIPT, q, some u, po⟩,
        ⟨pid, line.warehouse_id, MovementType.RECEIPT, q, some u, po⟩,
        ?_, rfl, rfl, rfl, rfl⟩
      rw [e2]
      show (sp_receive_po_item σ po pid q c u).state.movements ++ [_] = _
      rw [e1]
      show (σ.movements ++ [_]) ++ [_] = _
      rw [List.append_assoc]
      rfl
    · refine ⟨(pid, line.warehouse_id), fun k' => ?_⟩
      show (getStock (sp_receive_po_item (sp_receive_po_item σ po pid q c u).state
            po pid q c u).state.stock k').on_hand =
        (getStock σ.stock k').on_hand +
          (if k' = (pid, line.warehouse_id) then 2 * q else 0)
      by_cases hk : k' = (pid, line.warehouse_id)
      · rw [if_pos hk, hk, e2]
        show (getStock (setStock (sp_receive_po_item σ po pid q c u).state.stock
            (pid, line.warehouse_id) _ ) (pid, line.warehouse_id)).on_hand = _
        rw [getStock_setStock_same]
        show (getStock (sp_receive_po_item σ po pid q c u).state.stock
            (pid, line.warehouse_id)).on_hand + q = _
        rw [e1]
        show (getStock (setStock σ.stock (pid, line.warehouse_id) _ )
            (pid, line.warehouse_id)).on_hand + q = _
        rw [getStock_setStock_same]
        show (getStock σ.stock (pid, line.warehouse_id)).on_hand + q + q = _
        ring
      · rw [if_neg hk, e2]
        show (getStock (setStock (sp_receive_po_item σ po pid q c u).state.stock
            (pid, line.warehouse_id) _ ) k').on_hand = _
        rw [getStock_setStock_ne _ _ _ _ hk, e1]
        show (getStock (setStock σ.stock (pid, line.warehouse_id) _ ) k').on_hand = _
        rw [getStock_setStock_ne _ _ _ _ hk]
        show (getStock σ.stock k').on_hand = (getStock σ.stock k').on_hand + 0
        ring
  | allocate so pid q =>
    rcases sp_allocate_err_or σ so pid q with hne | ⟨line, hfind, hq, hav⟩
    · exact absurd h1 hne
    have e1 := sp_allocate_ok σ so pid q line hfind hq hav
    have hfind2 : find_so_line (sp_allocate_so_item σ so pid q).state so pid =
        some { line with allocated_qty := line.allocated_qty + q } := by
      rw [e1]
      show (update_so_line σ.so_lines so pid
          (fun l => { l with allocated_qty := l.allocated_qty + q })).find?
          (fun l => decide (l.so_id = so ∧ l.product_id = pid)) = _
      exact find?_update_so_line σ.so_lines so pid
        (fun l => { l with allocated_qty := l.allocated_qty + q })
        (fun l => ⟨rfl, rfl⟩) line hfind
    rcases sp_allocate_err_or (sp_allocate_so_item σ so pid q).state so pid q with
      hne2 | ⟨line2, hfind2', hq2, hav2⟩
    · exact absurd h2 hne2
    rw [hfind2] at hfind2'
    have hl := Option.some.inj hfind2'
    subst hl
    have e2 := sp_allocate_ok (sp_allocate_so_item σ so pid q).state so pid q
      _ hfind2 hq2 hav2
    constructor
    · show ∃ m1 m2, (sp_allocate_so_item (sp_allocate_so_item σ so pid q).state
            so pid q).state.movements = σ.movements ++ [m1, m2] ∧
          m1.movement_type = MovementType.ALLOCATION ∧
          m2.movement_type = MovementType.ALLOCATION ∧ m1.qty = q ∧ m2.qty = q
      refine ⟨⟨pid, line.warehouse_id, MovementType.ALLOCATION, q, none, so⟩,
        ⟨pid, line.warehouse_id, MovementType.ALLOCATION, q, none, so⟩,
        ?_, rfl, rfl, rfl, rfl⟩
      rw [e2]
      show (sp_allocate_so_item σ so pid q).state.movements ++ [_] = _
      rw [e1]
      show (σ.movements ++ [_]) ++ [_] = _
      rw [List.append_assoc]
      rfl
    · refine ⟨(pid, line.warehouse_id), fun k' => ?_⟩
      show (getStock (sp_allocate_so_item (sp_allocate_so_item σ so pid q).state
            so pid q).state.stock k').on_hand =
        (getStock σ.stock k').on_hand +
          (if k' = (pid, line.warehouse_id) then 2 * 0 else 0)
      rw [sp_allocate_stock, sp_allocate_stock]
      by_cases hk : k' = (pid, line.warehouse_id)
      · rw [if_pos hk]; ring
      · rw [if_neg hk]; ring
  | ship so pid q u =>
    rcases sp_ship_err_or σ so pid q u with hne | ⟨line, hfind, hq, hoh, hrem⟩
    · exact absurd h1 hne
    have e1 := sp_ship_ok σ so pid q u line hfind hq hoh hrem
    have hfind2 : find_so_line (sp_ship_so_item σ so pid q u).state so pid =
        some { line with shipped_qty := line.shipped_qty + q,
                         allocated_qty := max (line.allocated_qty - q) 0 } := by
      rw [e1]
      show (update_so_line σ.so_lines so pid
          (fun l => { l with shipped_qty := l.shipped_qty + q,
                             allocated_qty := max (l.allocated_qty - q) 0 })).find?
          (fun l => decide (l.so_id = so ∧ l.product_id = pid)) = _
      exact find?_update_so_line σ.so_lines so pid
        (fun l => { l with shipped_qty := l.shipped_qty + q,
                           allocated_qty := max (l.allocated_qty - q) 0 })
        (fun l => ⟨rfl, rfl⟩) line hfind
    rcases sp_ship_err_or (sp_ship_so_item σ so pid q u).state so pid q u with
      hne2 | ⟨line2, hfind2', hq2, hoh2, hrem2⟩
    · exact absurd h2 hne2
    rw [hfind2] at hfind2'
    have hl := Option.some.inj hfind2'
    subst hl
    have e2 := sp_ship_ok (sp_ship_so_item σ so pid q u).state so pid q u
      _ hfind2 hq2 hoh2 hrem2
    constructor
    · show ∃ m1 m2, (sp_ship_so_item (sp_ship_so_item σ so pid q u).state
            so pid q u).state.movements = σ.movements ++ [m1, m2] ∧
          m1.movement_type = MovementType.SALES_SHIPMENT ∧
          m2.movement_type = MovementType.SALES_SHIPMENT ∧ m1.qty = q ∧ m2.qty = q
      refine ⟨⟨pid, line.warehouse_id, MovementType.SALES_SHIPMENT, q, some u, so⟩,
        ⟨pid, line.warehouse_id, MovementType.SALES_SHIPMENT, q, some u, so⟩,
        ?_, rfl, rfl, rfl, rfl⟩
      rw [e2]
      show (sp_ship_so_item σ so pid q u).state.movements ++ [_] = _
      rw [e1]
      show (σ.movements ++ [_]) ++ [_] = _
      rw [List.append_assoc]
      rfl
    · refine ⟨(pid, line.warehouse_id), fun k' => ?_⟩
      show (getStock (sp_ship_so_item (sp_ship_so_item σ so pid q u).state
            so pid q u).state.stock k').on_hand =
        (getStock σ.stock k').on_hand +
          (if k' = (pid, line.warehouse_id) then 2 * -q else 0)
      by_cases hk : k' = (pid, line.warehouse_id)
      · rw [if_pos hk, hk, e2]
        show (getStock (setStock (sp_ship_so_item σ so pid q u).state.stock
            (pid, line.warehouse_id) _ ) (pid, line.warehouse_id)).on_hand = _
        rw [getStock_setStock_same]
        show (getStock (sp_ship_so_item σ so pid q u).state.stock
            (pid, line.warehouse_id)).on_hand - q = _
        rw [e1]
        show (getStock (setStock σ.stock (pid, line.warehouse_id) _ )
            (pid, line.warehouse_id)).on_hand - q = _
        rw [getStock_setStock_same]
        show (getStock σ.stock (pid, line.warehouse_id)).on_hand - q - q = _
        ring
      · rw [if_neg hk, e2]
        show (getStock (setStock (sp_ship_so_item σ so pid q u).state.stock
            (pid, line.warehouse_id) _ ) k').on_hand = _
        rw [getStock_setStock_ne _ _ _ _ hk, e1]
        show (getStock (setStock σ.stock (pid, line.warehouse_id) _ ) k').on_hand = _
        rw [getStock_setStock_ne _ _ _ _ hk]
        show (getStock σ.stock k').on_hand = (getStock σ.stock k').on_hand + 0
        ring
  | adjust adj pid qc u =>
    rcases sp_adjust_err_or σ adj pid qc u with hne | ⟨doc, hfind, hnn⟩
    · exact absurd h1 hne
    have e1 := sp_adjust_ok σ adj pid qc u doc hfind hnn
    have hfind2 : find_adjustment (sp_apply_adjustment_item σ adj pid qc u).state adj =
        some doc := by
      rw [e1]
      exact hfind
    rcases sp_adjust_err_or (sp_apply_adjustment_item σ adj pid qc u).state adj pid qc u
      with hne2 | ⟨doc2, hfind2', hnn2⟩
    · exact absurd h2 hne2
    rw [hfind2] at hfind2'
    have hl := Option.some.inj hfind2'
    subst hl
    have e2 := sp_adjust_ok (sp_apply_adjustment_item σ adj pid qc u).state adj pid qc u
      doc hfind2 hnn2
    constructor
    · show ∃ m1 m2, (sp_apply_adjustment_item (sp_apply_adjustment_item σ adj pid qc u).state
            adj pid qc u).state.movements = σ.movements ++ [m1, m2] ∧
          m1.movement_type = MovementType.ADJUSTMENT ∧
          m2.movement_type = MovementType.ADJUSTMENT ∧ m1.qty = qc ∧ m2.qty = qc
      refine ⟨⟨pid, doc.warehouse_id, MovementType.ADJUSTMENT, qc, some u, adj⟩,
        ⟨pid, doc.warehouse_id, MovementType.ADJUSTMENT, qc, some u, adj⟩,
        ?_, rfl, rfl, rfl, rfl⟩
      rw [e2]
      show (sp_apply_adjustment_item σ adj pid qc u).state.movements ++ [_] = _
      rw [e1]
      show (σ.movements ++ [_]) ++ [_] = _
      rw [List.append_assoc]
      rfl
    · refine ⟨(pid, doc.warehouse_id), fun k' => ?_⟩
      show (getStock (sp_apply_adjustment_item (sp_apply_adjustment_item σ adj pid qc u).state
            adj pid qc u).state.stock k').on_hand =
        (getStock σ.stock k').on_hand +
          (if k' = (pid, doc.warehouse_id) then 2 * qc else 0)
      by_cases hk : k' = (pid, doc.warehouse_id)
      · rw [if_pos hk, hk, e2]
        show (getStock (setStock (sp_apply_adjustment_item σ adj pid qc u).state.stock
            (pid, doc.warehouse_id) _ ) (pid, doc.warehouse_id)).on_hand = _
        rw [getStock_setStock_same]
        show (getStock (sp_apply_adjustment_item σ adj pid qc u).state.stock
            (pid, doc.warehouse_id)).on_hand + qc = _
        rw [e1]
        show (getStock (setStock σ.stock (pid, doc.warehouse_id) _ )
            (pid, doc.warehouse_id)).on_hand + qc = _
        rw [getStock_setStock_same]
        show (getStock σ.stock (pid, doc.warehouse_id)).on_hand + qc + qc = _
        ring
      · rw [if_neg hk, e2]
        show (getStock (setStock (sp_apply_adjustment_item σ adj pid qc u).state.stock
            (pid, doc.warehouse_id) _ ) k').on_hand = _
        rw [getStock_setStock_ne _ _ _ _ hk, e1]
        show (getStock (setStock σ.stock (pid, doc.warehouse_id) _ ) k').on_hand = _
        rw [getStock_setStock_ne _ _ _ _ hk]
        show (getStock σ.stock k').on_hand = (getStock σ.stock k').on_hand + 0
        ring

/-- Witness for C8: receiving 10 at cost 5 twice on the example state
succeeds twice, appends two RECEIPT movements and moves on_hand by
2 * 10 at the target key. -/
theorem mutating_op_twice_double_applies_witness :
    (apply_op exState (Op.receive 1 1 10 5 1)).err = none ∧
      (apply_op (apply_op exState (Op.receive 1 1 10 5 1)).state
          (Op.receive 1 1 10 5 1)).err = none ∧
      ((∃ m1 m2 : InventoryMovement,
          (apply_op (apply_op exState (Op.receive 1 1 10 5 1)).state
              (Op.receive 1 1 10 5 1)).state.movements =
              exState.movements ++ [m1, m2] ∧
            m1.movement_type = op_movement_type (Op.receive 1 1 10 5 1) ∧
            m2.movement_type = op_movement_type (Op.receive 1 1 10 5 1) ∧
            m1.qty = op_qty (Op.receive 1 1 10 5 1) ∧
            m2.qty = op_qty (Op.receive 1 1 10 5 1)) ∧
        ∃ k : Nat × Nat, ∀ k' : Nat × Nat,
          (getStock (apply_op (apply_op exState (Op.receive 1 1 10 5 1)).state
              (Op.receive 1 1 10 5 1)).state.stock k').on_hand =
            (getStock exState.stock k').on_hand +
              (if k' = k then 2 * op_on_hand_delta (Op.receive 1 1 10 5 1) else 0)) := by
  have e1 := sp_receive_ok exState 1 1 10 5 1 exPOLine rfl (by norm_num) (by norm_num)
    (by show (10 : ℚ) ≤ 100 - 0; norm_num)
  have h1 : (apply_op exState (Op.receive 1 1 10 5 1)).err = none := by
    show (sp_receive_po_item exState 1 1 10 5 1).err = none
    rw [e1]
  have hfind2 : find_po_line (sp_receive_po_item exState 1 1 10 5 1).state 1 1 =
      some { exPOLine with received_qty := exPOLine.received_qty + 10 } := by
    rw [e1]
    rfl
  have e2 := sp_receive_ok (sp_receive_po_item exState 1 1 10 5 1).state 1 1 10 5 1 _
    hfind2 (by norm_num) (by norm_num)
    (by show (10 : ℚ) ≤ 100 - (0 + 10); norm_num)
  have h2 : (apply_op (apply_op exState (Op.receive 1 1 10 5 1)).state
      (Op.receive 1 1 10 5 1)).err = none := by
    show (sp_receive_po_item (sp_receive_po_item exState 1 1 10 5 1).state
        1 1 10 5 1).err = none
    rw [e2]
  exact ⟨h1, h2, mutating_op_twice_double_applies exState (Op.receive 1 1 10 5 1) h1 h2⟩

end Inventory

namespace ProcCall

/-- C10 counterexample: in `fetchRaisesWorld` the first fetchall() raises,
yet call_procedure_core swallows the exception, commits, and returns the
success pair (True, []) — so "any step raises implies the failure pair" is
false of the source. -/
theorem call_procedure_core_claim_counterexample :
    ¬ claimed_c10_spec fetchRaisesWorld := by
  intro hc
  have hstep : any_step_raised fetchRaisesWorld = true := rfl
  have hfail := hc.2 hstep
  have hsucc : is_success (call_procedure_core fetchRaisesWorld).result = true := rfl
  rw [hsucc] at hfail
  simp at hfail

/-- C10 (amended): call_procedure_core always returns a pair and never
propagates an exception; the success pair (True, resultsets) is returned
exactly when raw_connection, cursor creation, callproc, commit and both
closes succeed — fetch and nextset exceptions are swallowed and only shrink
the resultsets — and closing the cursor and the connection is attempted on
every path, failure paths included. -/
theorem call_procedure_core_total_spec (w : DBWorld) :
    is_success (call_procedure_core w).result = critical_ok w ∧
      (call_procedure_core w).cursor_close_attempted = true ∧
      (call_procedure_core w).conn_close_attempted = true := by
  obtain ⟨rc, oc, cp, ff, fc, ns, cm, cc, nc⟩ := w
  cases rc <;> cases oc <;> cases cp <;> cases cm <;> cases cc <;> cases nc <;>
    exact ⟨rfl, rfl, rfl⟩

end ProcCall
